import Mathlib

/-!
Shallow embedding of the metrics-aggregation core of the ecfr-dashboard
repository, together with the callers that select "latest metrics" per agency
and the agency-grid sort.

Modelling conventions:
* TypeScript `number` values that hold counted quantities (`word_count`,
  `paragraph_count`, `sentence_count`) are modelled as `Option ℕ`: `none`
  stands for a `null`/`undefined` value coming from the datastore (the code
  defends against these with `|| 0`), and the payload is a natural number
  because the data model fixes counts as non-negative integers.
* Score fields are real-valued and are modelled as `Option ℚ`.
* JavaScript `x || d` on numbers is `jsOrN`/`jsOrQ`: both `null` and `0` are
  falsy.
* `new Date(s).getFullYear()` is `getFullYear`, which returns `none` (standing
  for `NaN`) when the string does not begin with a four-digit year, e.g. the
  empty string.
* The `reduce` that builds the JS object `Record<number, ...>` keyed by year is
  a left fold building a function `Option ℤ → Option YearData`; all records
  with unparsable dates share the single `none` key, exactly as all `NaN`
  years share the single `"NaN"` property key in JS.
* The closure-mutated running totals of the `allYears.map(...)` body become
  explicit state passing (`RunState`, `stepState`, `stepEntry`, `aggLoop`).
-/

/-- Shallow model of JavaScript `new Date(s).getFullYear()` restricted to
ISO-format date strings (`YYYY-MM-DD`): the leading four characters parse as
the year; a string that does not begin with four digits (for example the empty
string) yields `none`, standing for `NaN`. -/
def getFullYear (s : String) : Option Int :=
  let ds := s.toList.take 4
  if ds.length == 4 && ds.all Char.isDigit then
    some (ds.foldl (fun n c => 10 * n + ((c.toNat : Int) - ((Char.toNat '0' : Nat) : Int))) 0)
  else
    none

/-- JavaScript `x || d` for a possibly-null natural number: `null`/`undefined`
(`none`) and `0` are falsy and give the fallback `d`. -/
def jsOrN : Option Nat → Nat → Nat
  | none, d => d
  | some v, d => if v = 0 then d else v

/-- JavaScript `x || d` for a possibly-null rational score: `null`/`undefined`
(`none`) and `0` are falsy and give the fallback `d`. -/
def jsOrQ : Option ℚ → ℚ → ℚ
  | none, d => d
  | some v, d => if v = 0 then d else v

/-- Input record of the gap-filled aggregator (`interface AgencyMetric`,
second variant in `part_006`). -/
structure AgencyMetric where
  id : Int
  agency_id : Int
  metrics_date : String
  word_count : Option Nat
  paragraph_count : Option Nat
  sentence_count : Option Nat
  combined_readability_score : Option ℚ
  flesch_reading_ease : Option ℚ
  smog_index_score : Option ℚ
  automated_readability_score : Option ℚ
  deriving DecidableEq, Repr

/-- Output row of the gap-filled aggregator (`interface AggregatedMetric`,
second variant in `part_006`). -/
structure AggregatedMetric where
  year : Int
  word_count : Nat
  cumulative_word_count : Nat
  paragraph_count : Nat
  cumulative_paragraph_count : Nat
  sentence_count : Nat
  cumulative_sentence_count : Nat
  avg_combined_readability_score : ℚ
  avg_flesch_reading_ease : ℚ
  avg_smog_index_score : ℚ
  avg_automated_readability_score : ℚ
  deriving DecidableEq, Repr

/-- Per-year accumulator of the grouping `reduce` inside
`aggregateMetricsByYear` (`acc[year]` in the source). -/
structure YearData where
  count : Nat
  word_count : Nat
  paragraph_count : Nat
  sentence_count : Nat
  combined_readability_score : ℚ
  flesch_reading_ease : ℚ
  smog_index_score : ℚ
  automated_readability_score : ℚ
  deriving DecidableEq, Repr

/-- The all-zero `acc[year]` initialiser of the grouping `reduce`. -/
def zeroYearData : YearData :=
  { count := 0, word_count := 0, paragraph_count := 0, sentence_count := 0,
    combined_readability_score := 0, flesch_reading_ease := 0,
    smog_index_score := 0, automated_readability_score := 0 }

/-- One record's contribution to its year bucket: the `acc[year].x += ...`
lines of the grouping `reduce`. -/
def bump (d : YearData) (m : AgencyMetric) : YearData :=
  { count := d.count + 1,
    word_count := d.word_count + jsOrN m.word_count 0,
    paragraph_count := d.paragraph_count + jsOrN m.paragraph_count 0,
    sentence_count := d.sentence_count + jsOrN m.sentence_count 0,
    combined_readability_score :=
      d.combined_readability_score + jsOrQ m.combined_readability_score 0,
    flesch_reading_ease := d.flesch_reading_ease + jsOrQ m.flesch_reading_ease 0,
    smog_index_score := d.smog_index_score + jsOrQ m.smog_index_score 0,
    automated_readability_score :=
      d.automated_readability_score + jsOrQ m.automated_readability_score 0 }

/-- One step of the grouping `reduce`: create the year bucket if absent, then
add the record's fields into it. -/
def yearlyStep (acc : Option Int → Option YearData) (metric : AgencyMetric) :
    Option Int → Option YearData :=
  let year := getFullYear metric.metrics_date
  let prev := (acc year).getD zeroYearData
  fun k => if k = year then some (bump prev metric) else acc k

/-- The grouping `reduce` of `aggregateMetricsByYear`, started from an
arbitrary accumulator (used for induction). -/
def yearlyMetricsFrom (l : List AgencyMetric) (acc : Option Int → Option YearData) :
    Option Int → Option YearData :=
  l.foldl yearlyStep acc

/-- The grouping `reduce` of `aggregateMetricsByYear`: `metrics.reduce(...)`
building `yearlyMetrics`, keyed by the (possibly `NaN`) year of each record. -/
def yearlyMetrics (metrics : List AgencyMetric) : Option Int → Option YearData :=
  yearlyMetricsFrom metrics (fun _ => none)

/-- The closure-mutated running variables of `aggregateMetricsByYear`
(`cumulativeWordCount`, ..., `lastReadabilityScore`, ...). -/
structure RunState where
  cumulativeWordCount : Nat
  cumulativeParagraphCount : Nat
  cumulativeSentenceCount : Nat
  lastReadabilityScore : ℚ
  lastFleschScore : ℚ
  lastSmogScore : ℚ
  lastAutomatedScore : ℚ
  deriving DecidableEq, Repr

/-- The initial values of the running variables: counts 0, last scores 0. -/
def initRunState : RunState :=
  { cumulativeWordCount := 0, cumulativeParagraphCount := 0,
    cumulativeSentenceCount := 0, lastReadabilityScore := 0,
    lastFleschScore := 0, lastSmogScore := 0, lastAutomatedScore := 0 }

/-- `yearlyMetrics[year] || { count: 0, ..., combined_readability_score:
lastReadabilityScore, ... }`: the year's bucket, or the default object carrying
the last known scores when the year has no records. -/
def yearDataAt (yearly : Option Int → Option YearData) (st : RunState)
    (year : Int) : YearData :=
  (yearly (some year)).getD
    { count := 0, word_count := 0, paragraph_count := 0, sentence_count := 0,
      combined_readability_score := st.lastReadabilityScore,
      flesch_reading_ease := st.lastFleschScore,
      smog_index_score := st.lastSmogScore,
      automated_readability_score := st.lastAutomatedScore }

/-- State update of one iteration of the `allYears.map` body: cumulative
totals grow by the year's sums, and the last known scores become this year's
averages when the year has records. -/
def stepState (yearly : Option Int → Option YearData) (st : RunState)
    (year : Int) : RunState :=
  let yd := yearDataAt yearly st year
  { cumulativeWordCount := st.cumulativeWordCount + yd.word_count,
    cumulativeParagraphCount := st.cumulativeParagraphCount + yd.paragraph_count,
    cumulativeSentenceCount := st.cumulativeSentenceCount + yd.sentence_count,
    lastReadabilityScore :=
      if yd.count > 0 then yd.combined_readability_score / (yd.count : ℚ)
      else st.lastReadabilityScore,
    lastFleschScore :=
      if yd.count > 0 then yd.flesch_reading_ease / (yd.count : ℚ)
      else st.lastFleschScore,
    lastSmogScore :=
      if yd.count > 0 then yd.smog_index_score / (yd.count : ℚ)
      else st.lastSmogScore,
    lastAutomatedScore :=
      if yd.count > 0 then yd.automated_readability_score / (yd.count : ℚ)
      else st.lastAutomatedScore }

/-- The object returned by one iteration of the `allYears.map` body. The
emitted averages coincide with the updated last-known scores, and the emitted
cumulative totals with the updated running totals, exactly as in the source. -/
def stepEntry (yearly : Option Int → Option YearData) (st : RunState)
    (year : Int) : AggregatedMetric :=
  let yd := yearDataAt yearly st year
  let st' := stepState yearly st year
  { year := year,
    word_count := yd.word_count,
    cumulative_word_count := st'.cumulativeWordCount,
    paragraph_count := yd.paragraph_count,
    cumulative_paragraph_count := st'.cumulativeParagraphCount,
    sentence_count := yd.sentence_count,
    cumulative_sentence_count := st'.cumulativeSentenceCount,
    avg_combined_readability_score := st'.lastReadabilityScore,
    avg_flesch_reading_ease := st'.lastFleschScore,
    avg_smog_index_score := st'.lastSmogScore,
    avg_automated_readability_score := st'.lastAutomatedScore }

/-- The `allYears.map(year => ...)` walk with its closure-mutated running
state made explicit. -/
def aggLoop (yearly : Option Int → Option YearData) :
    RunState → List Int → List AggregatedMetric
  | _, [] => []
  | st, year :: rest =>
    stepEntry yearly st year :: aggLoop yearly (stepState yearly st year) rest

/-- The helper `generateYearRange(startYear, endYear)`: the years from
`startYear` to `endYear` inclusive, empty when `startYear > endYear`. -/
def generateYearRange (startYear endYear : Int) : List Int :=
  (List.range (endYear + 1 - startYear).toNat).map (fun i : Nat => startYear + (i : Int))

/-- The gap-filled `aggregateMetricsByYear` of `part_006`. The source reads
the current calendar year from the clock (`new Date().getFullYear()`); here it
is the explicit parameter `currentYear`. -/
def aggregateMetricsByYear (metrics : List AgencyMetric) (currentYear : Int) :
    List AggregatedMetric :=
  aggLoop (yearlyMetrics metrics) initRunState (generateYearRange 2016 currentYear)

/-- Records of a given calendar year: those whose date parses to that year. -/
def recordsForYear (metrics : List AgencyMetric) (y : Int) : List AgencyMetric :=
  metrics.filter (fun m => decide (getFullYear m.metrics_date = some y))

/-- Records grouped under an arbitrary year key, the `NaN` key (`none`)
included. `recordsForKey metrics (some y) = recordsForYear metrics y`. -/
def recordsForKey (metrics : List AgencyMetric) (k : Option Int) : List AgencyMetric :=
  metrics.filter (fun m => decide (getFullYear m.metrics_date = k))


theorem yearlyMetricsFrom_cons (m : AgencyMetric) (l : List AgencyMetric)
    (acc : Option Int → Option YearData) :
    yearlyMetricsFrom (m :: l) acc = yearlyMetricsFrom l (yearlyStep acc m) := rfl

theorem yearlyMetricsFrom_apply (l : List AgencyMetric) :
    ∀ (acc : Option Int → Option YearData) (k : Option Int),
      yearlyMetricsFrom l acc k =
        if recordsForKey l k = [] then acc k
        else some ((recordsForKey l k).foldl bump ((acc k).getD zeroYearData)) := by
  induction l with
  | nil => intro acc k; simp [yearlyMetricsFrom, recordsForKey]
  | cons m l ih =>
    intro acc k
    rw [yearlyMetricsFrom_cons, ih]
    by_cases hk : getFullYear m.metrics_date = k
    · have hstep : yearlyStep acc m k = some (bump ((acc k).getD zeroYearData) m) := by
        simp [yearlyStep, ← hk]
      have hfil : recordsForKey (m :: l) k = m :: recordsForKey l k := by
        simp [recordsForKey, List.filter_cons, hk]
      rw [hfil, hstep]
      by_cases hrest : recordsForKey l k = []
      · simp [hrest]
      · simp [hrest]
    · have hstep : yearlyStep acc m k = acc k := by
        simp [yearlyStep]
        intro h
        exact absurd h.symm hk
      have hfil : recordsForKey (m :: l) k = recordsForKey l k := by
        simp [recordsForKey, List.filter_cons, hk]
      rw [hfil, hstep]

theorem yearlyMetrics_apply (metrics : List AgencyMetric) (k : Option Int) :
    yearlyMetrics metrics k =
      if recordsForKey metrics k = [] then none
      else some ((recordsForKey metrics k).foldl bump zeroYearData) := by
  rw [yearlyMetrics, yearlyMetricsFrom_apply]
  rfl

theorem foldl_bump_eq (l : List AgencyMetric) :
    ∀ d : YearData,
      l.foldl bump d =
        { count := d.count + l.length,
          word_count := d.word_count + (l.map (fun m => jsOrN m.word_count 0)).sum,
          paragraph_count := d.paragraph_count + (l.map (fun m => jsOrN m.paragraph_count 0)).sum,
          sentence_count := d.sentence_count + (l.map (fun m => jsOrN m.sentence_count 0)).sum,
          combined_readability_score := d.combined_readability_score +
            (l.map (fun m => jsOrQ m.combined_readability_score 0)).sum,
          flesch_reading_ease := d.flesch_reading_ease +
            (l.map (fun m => jsOrQ m.flesch_reading_ease 0)).sum,
          smog_index_score := d.smog_index_score +
            (l.map (fun m => jsOrQ m.smog_index_score 0)).sum,
          automated_readability_score := d.automated_readability_score +
            (l.map (fun m => jsOrQ m.automated_readability_score 0)).sum } := by
  induction l with
  | nil => intro d; simp
  | cons m l ih =>
    intro d
    rw [List.foldl_cons, ih (bump d m)]
    simp only [bump, List.map_cons, List.sum_cons, YearData.mk.injEq, List.length_cons]
    refine ⟨by omega, by omega, by omega, by omega, by ring, by ring, by ring, by ring⟩

theorem generateYearRange_length (s e : Int) (h : s ≤ e) :
    ((generateYearRange s e).length : Int) = e - s + 1 := by
  simp only [generateYearRange, List.length_map, List.length_range]
  omega

theorem generateYearRange_sorted (s e : Int) :
    (generateYearRange s e).Pairwise (fun a b => a < b) := by
  unfold generateYearRange
  refine List.Pairwise.map _ (fun a b hab => ?_) (List.pairwise_lt_range _)
  omega

theorem mem_generateYearRange (s e y : Int) :
    y ∈ generateYearRange s e ↔ s ≤ y ∧ y ≤ e := by
  simp only [generateYearRange, List.mem_map, List.mem_range]
  constructor
  · rintro ⟨i, hi, rfl⟩
    omega
  · rintro ⟨h1, h2⟩
    exact ⟨(y - s).toNat, by omega, by omega⟩

theorem stepEntry_year (yearly : Option Int → Option YearData) (st : RunState)
    (year : Int) : (stepEntry yearly st year).year = year := rfl

theorem aggLoop_map_year (yearly : Option Int → Option YearData) :
    ∀ (ys : List Int) (st : RunState),
      (aggLoop yearly st ys).map (fun e => e.year) = ys := by
  intro ys
  induction ys with
  | nil => intro st; rfl
  | cons y ys ih => intro st; simp [aggLoop, stepEntry_year, ih]

theorem mem_aggLoop (yearly : Option Int → Option YearData) :
    ∀ (ys : List Int) (st : RunState) (e : AggregatedMetric),
      e ∈ aggLoop yearly st ys → ∃ st' y, y ∈ ys ∧ e = stepEntry yearly st' y := by
  intro ys
  induction ys with
  | nil => intro st e h; simp [aggLoop] at h
  | cons y ys ih =>
    intro st e h
    rcases List.mem_cons.mp h with h1 | h2
    · exact ⟨st, y, List.mem_cons_self _ _, h1⟩
    · obtain ⟨st', y', hy', he⟩ := ih (stepState yearly st y) e h2
      exact ⟨st', y', List.mem_cons_of_mem _ hy', he⟩

theorem stepEntry_cum_word (yearly : Option Int → Option YearData) (st : RunState) (y : Int) :
    (stepEntry yearly st y).cumulative_word_count = (stepState yearly st y).cumulativeWordCount := rfl

theorem stepEntry_cum_para (yearly : Option Int → Option YearData) (st : RunState) (y : Int) :
    (stepEntry yearly st y).cumulative_paragraph_count = (stepState yearly st y).cumulativeParagraphCount := rfl

theorem stepEntry_cum_sent (yearly : Option Int → Option YearData) (st : RunState) (y : Int) :
    (stepEntry yearly st y).cumulative_sentence_count = (stepState yearly st y).cumulativeSentenceCount := rfl

theorem stepEntry_avg_combined (yearly : Option Int → Option YearData) (st : RunState) (y : Int) :
    (stepEntry yearly st y).avg_combined_readability_score = (stepState yearly st y).lastReadabilityScore := rfl

theorem stepEntry_avg_flesch (yearly : Option Int → Option YearData) (st : RunState) (y : Int) :
    (stepEntry yearly st y).avg_flesch_reading_ease = (stepState yearly st y).lastFleschScore := rfl

theorem stepEntry_avg_smog (yearly : Option Int → Option YearData) (st : RunState) (y : Int) :
    (stepEntry yearly st y).avg_smog_index_score = (stepState yearly st y).lastSmogScore := rfl

theorem stepEntry_avg_auto (yearly : Option Int → Option YearData) (st : RunState) (y : Int) :
    (stepEntry yearly st y).avg_automated_readability_score = (stepState yearly st y).lastAutomatedScore := rfl

theorem stepState_cum_mono (yearly : Option Int → Option YearData) (st : RunState) (y : Int) :
    st.cumulativeWordCount ≤ (stepState yearly st y).cumulativeWordCount ∧
    st.cumulativeParagraphCount ≤ (stepState yearly st y).cumulativeParagraphCount ∧
    st.cumulativeSentenceCount ≤ (stepState yearly st y).cumulativeSentenceCount := by
  refine ⟨?_, ?_, ?_⟩ <;> exact Nat.le_add_right _ _

theorem aggLoop_head_cum (yearly : Option Int → Option YearData) :
    ∀ (ys : List Int) (st : RunState), ∀ e ∈ (aggLoop yearly st ys).head?,
      st.cumulativeWordCount ≤ e.cumulative_word_count ∧
      st.cumulativeParagraphCount ≤ e.cumulative_paragraph_count ∧
      st.cumulativeSentenceCount ≤ e.cumulative_sentence_count := by
  intro ys
  cases ys with
  | nil => intro st e he; simp [aggLoop] at he
  | cons y ys =>
    intro st e he
    simp only [aggLoop, List.head?_cons, Option.mem_def, Option.some.injEq] at he
    subst he
    rw [stepEntry_cum_word, stepEntry_cum_para, stepEntry_cum_sent]
    exact stepState_cum_mono yearly st y

theorem aggLoop_chain_cum (yearly : Option Int → Option YearData) :
    ∀ (ys : List Int) (st : RunState),
      List.Chain' (fun a b =>
        a.cumulative_word_count ≤ b.cumulative_word_count ∧
        a.cumulative_paragraph_count ≤ b.cumulative_paragraph_count ∧
        a.cumulative_sentence_count ≤ b.cumulative_sentence_count)
        (aggLoop yearly st ys) := by
  intro ys
  induction ys with
  | nil => intro st; simp [aggLoop]
  | cons y ys ih =>
    intro st
    rw [show aggLoop yearly st (y :: ys)
        = stepEntry yearly st y :: aggLoop yearly (stepState yearly st y) ys from rfl]
    rw [List.chain'_cons']
    refine ⟨?_, ih _⟩
    intro b hb
    obtain ⟨h1, h2, h3⟩ := aggLoop_head_cum yearly ys (stepState yearly st y) b hb
    rw [stepEntry_cum_word, stepEntry_cum_para, stepEntry_cum_sent]
    exact ⟨h1, h2, h3⟩

theorem recordsForKey_some (metrics : List AgencyMetric) (y : Int) :
    recordsForKey metrics (some y) = recordsForYear metrics y := rfl

theorem yearlyMetrics_some_eq_none_iff (metrics : List AgencyMetric) (y : Int) :
    yearlyMetrics metrics (some y) = none ↔ recordsForYear metrics y = [] := by
  rw [yearlyMetrics_apply, recordsForKey_some]
  by_cases h : recordsForYear metrics y = [] <;> simp [h]

theorem aggLoop_head_gap (metrics : List AgencyMetric) :
    ∀ (ys : List Int) (st : RunState), ∀ e ∈ (aggLoop (yearlyMetrics metrics) st ys).head?,
      recordsForYear metrics e.year = [] →
      e.word_count = 0 ∧ e.paragraph_count = 0 ∧ e.sentence_count = 0 ∧
      e.cumulative_word_count = st.cumulativeWordCount ∧
      e.cumulative_paragraph_count = st.cumulativeParagraphCount ∧
      e.cumulative_sentence_count = st.cumulativeSentenceCount ∧
      e.avg_combined_readability_score = st.lastReadabilityScore ∧
      e.avg_flesch_reading_ease = st.lastFleschScore ∧
      e.avg_smog_index_score = st.lastSmogScore ∧
      e.avg_automated_readability_score = st.lastAutomatedScore := by
  intro ys
  cases ys with
  | nil => intro st e he; simp [aggLoop] at he
  | cons y ys =>
    intro st e he hgap
    simp only [aggLoop, List.head?_cons, Option.mem_def, Option.some.injEq] at he
    subst he
    rw [stepEntry_year] at hgap
    have hnone : yearlyMetrics metrics (some y) = none :=
      (yearlyMetrics_some_eq_none_iff metrics y).mpr hgap
    have hyd : yearDataAt (yearlyMetrics metrics) st y =
        { count := 0, word_count := 0, paragraph_count := 0, sentence_count := 0,
          combined_readability_score := st.lastReadabilityScore,
          flesch_reading_ease := st.lastFleschScore,
          smog_index_score := st.lastSmogScore,
          automated_readability_score := st.lastAutomatedScore } := by
      simp [yearDataAt, hnone]
    simp [stepEntry, stepState, hyd]

theorem aggLoop_chain_gap (metrics : List AgencyMetric) :
    ∀ (ys : List Int) (st : RunState),
      List.Chain' (fun a b => recordsForYear metrics b.year = [] →
        b.word_count = 0 ∧ b.paragraph_count = 0 ∧ b.sentence_count = 0 ∧
        b.cumulative_word_count = a.cumulative_word_count ∧
        b.cumulative_paragraph_count = a.cumulative_paragraph_count ∧
        b.cumulative_sentence_count = a.cumulative_sentence_count ∧
        b.avg_combined_readability_score = a.avg_combined_readability_score ∧
        b.avg_flesch_reading_ease = a.avg_flesch_reading_ease ∧
        b.avg_smog_index_score = a.avg_smog_index_score ∧
        b.avg_automated_readability_score = a.avg_automated_readability_score)
        (aggLoop (yearlyMetrics metrics) st ys) := by
  intro ys
  induction ys with
  | nil => intro st; simp [aggLoop]
  | cons y ys ih =>
    intro st
    rw [show aggLoop (yearlyMetrics metrics) st (y :: ys)
        = stepEntry (yearlyMetrics metrics) st y ::
          aggLoop (yearlyMetrics metrics) (stepState (yearlyMetrics metrics) st y) ys from rfl]
    rw [List.chain'_cons']
    refine ⟨?_, ih _⟩
    intro b hb hgap
    obtain ⟨h1, h2, h3, h4, h5, h6, h7, h8, h9, h10⟩ :=
      aggLoop_head_gap metrics ys (stepState (yearlyMetrics metrics) st y) b hb hgap
    refine ⟨h1, h2, h3, ?_, ?_, ?_, ?_, ?_, ?_, ?_⟩
    · rw [h4, stepEntry_cum_word]
    · rw [h5, stepEntry_cum_para]
    · rw [h6, stepEntry_cum_sent]
    · rw [h7, stepEntry_avg_combined]
    · rw [h8, stepEntry_avg_flesch]
    · rw [h9, stepEntry_avg_smog]
    · rw [h10, stepEntry_avg_auto]

theorem aggLoop_congr (y1 y2 : Option Int → Option YearData)
    (h : ∀ y : Int, y1 (some y) = y2 (some y)) :
    ∀ (ys : List Int) (st : RunState), aggLoop y1 st ys = aggLoop y2 st ys := by
  have hyd : ∀ st y, yearDataAt y1 st y = yearDataAt y2 st y := by
    intro st y; simp [yearDataAt, h y]
  have hst : ∀ st y, stepState y1 st y = stepState y2 st y := by
    intro st y; simp [stepState, hyd]
  have hse : ∀ st y, stepEntry y1 st y = stepEntry y2 st y := by
    intro st y; simp [stepEntry, hyd, hst]
  intro ys
  induction ys with
  | nil => intro st; rfl
  | cons y ys ih => intro st; simp [aggLoop, hse, hst, ih]

/-- Helper to build a record carrying only a word count, with every other
datastore field null; used for concrete instances of the claims. -/
def mkCountRecord (date : String) (wc : Nat) : AgencyMetric :=
  { id := 0, agency_id := 1, metrics_date := date, word_count := some wc,
    paragraph_count := none, sentence_count := none,
    combined_readability_score := none, flesch_reading_ease := none,
    smog_index_score := none, automated_readability_score := none }

/-- C1: for every input record list, the gap-filled `aggregateMetricsByYear`
(range fixed at 2016..currentYear) returns exactly `endYear - startYear + 1`
entries, in strictly ascending year order, with one entry for every year of
the range, years without records included. -/
theorem aggregateByYear_length_sorted_gapless (metrics : List AgencyMetric)
    (currentYear : Int) (h : 2016 ≤ currentYear) :
    ((aggregateMetricsByYear metrics currentYear).length : Int) = currentYear - 2016 + 1 ∧
    ((aggregateMetricsByYear metrics currentYear).map (fun e => e.year)).Pairwise
      (fun a b => a < b) ∧
    ∀ y : Int, (y ∈ (aggregateMetricsByYear metrics currentYear).map (fun e => e.year) ↔
      2016 ≤ y ∧ y ≤ currentYear) := by
  have hmap : (aggregateMetricsByYear metrics currentYear).map (fun e => e.year)
      = generateYearRange 2016 currentYear := aggLoop_map_year _ _ _
  refine ⟨?_, ?_, ?_⟩
  · have hlen : (aggregateMetricsByYear metrics currentYear).length
        = (generateYearRange 2016 currentYear).length := by
      rw [← hmap, List.length_map]
    rw [hlen]
    exact generateYearRange_length 2016 currentYear h
  · rw [hmap]; exact generateYearRange_sorted _ _
  · intro y; rw [hmap]; exact mem_generateYearRange _ _ y

/-- Witness for C1 at the concrete input `metrics = []`, `currentYear = 2017`. -/
theorem aggregateByYear_length_sorted_gapless_witness :
    ((aggregateMetricsByYear [] 2017).length : Int) = 2017 - 2016 + 1 ∧
    ((aggregateMetricsByYear [] 2017).map (fun e => e.year)).Pairwise (fun a b => a < b) :=
  ⟨(aggregateByYear_length_sorted_gapless [] 2017 (by decide)).1,
   (aggregateByYear_length_sorted_gapless [] 2017 (by decide)).2.1⟩

/-- A record whose `metrics_date` is the empty string, which does not parse to
a year (`new Date('')` is an Invalid Date, `getFullYear()` is `NaN`). -/
def malformedRecord : AgencyMetric :=
  { id := 1, agency_id := 7, metrics_date := "", word_count := some 99,
    paragraph_count := some 3, sentence_count := some 8,
    combined_readability_score := some 55, flesch_reading_ease := some 40,
    smog_index_score := some 12, automated_readability_score := some 9 }

/-- C2 counterexample: on a record with an unparsable (empty) date the code
does not fail at all: `aggregateMetricsByYear` returns the normal gap-filled
result, identical to the output on the empty input, with the malformed
record's values (word count 99, scores 55/40/12/9) appearing in no bucket.
No `MalformedRecordError` exists in the source. -/
theorem malformed_record_no_failure :
    getFullYear malformedRecord.metrics_date = none ∧
    aggregateMetricsByYear [malformedRecord] 2016 = aggregateMetricsByYear [] 2016 ∧
    aggregateMetricsByYear [malformedRecord] 2016 =
      [{ year := 2016, word_count := 0, cumulative_word_count := 0,
         paragraph_count := 0, cumulative_paragraph_count := 0,
         sentence_count := 0, cumulative_sentence_count := 0,
         avg_combined_readability_score := 0, avg_flesch_reading_ease := 0,
         avg_smog_index_score := 0, avg_automated_readability_score := 0 }] := by
  decide

/-- C2 as amended: a record whose date string does not parse to a valid year
is grouped under the single `NaN` key, which no output year ever reads, so the
record is silently ignored: the aggregation returns the same normal result as
without the record, raises no error, and no `NaN`-tainted year bucket reaches
the output. -/
theorem malformed_record_silently_ignored (metrics : List AgencyMetric)
    (bad : AgencyMetric) (currentYear : Int)
    (h : getFullYear bad.metrics_date = none) :
    aggregateMetricsByYear (bad :: metrics) currentYear =
      aggregateMetricsByYear metrics currentYear := by
  unfold aggregateMetricsByYear
  refine aggLoop_congr _ _ (fun y => ?_) _ _
  rw [yearlyMetrics_apply, yearlyMetrics_apply, recordsForKey_some, recordsForKey_some]
  have hfil : recordsForYear (bad :: metrics) y = recordsForYear metrics y := by
    simp [recordsForYear, List.filter_cons, h]
  rw [hfil]

/-- Witness for the amended C2 at the concrete malformed record and
`currentYear = 2018`. -/
theorem malformed_record_silently_ignored_witness :
    aggregateMetricsByYear [malformedRecord] 2018 = aggregateMetricsByYear [] 2018 :=
  malformed_record_silently_ignored [] malformedRecord 2018 (by decide)

/-- C3 counterexample: with `startYear > endYear` the code returns a normal
empty result instead of failing: `generateYearRange 2020 2016` is `[]`, and
`aggregateMetricsByYear` for a clock year before 2016 (range 2016..2015)
returns `[]`. No `InvalidRangeError` exists in the source. -/
theorem invalid_range_no_failure :
    generateYearRange 2020 2016 = [] ∧ aggregateMetricsByYear [] 2015 = [] := by
  decide

/-- C3 as amended: for `startYear > endYear` the year-range loop body never
runs, so `generateYearRange` returns the empty list and the aggregation over
an empty range returns no entries; no error is raised. -/
theorem invalid_range_yields_empty (startYear endYear : Int)
    (metrics : List AgencyMetric) (currentYear : Int)
    (h1 : endYear < startYear) (h2 : currentYear < 2016) :
    generateYearRange startYear endYear = [] ∧
    aggregateMetricsByYear metrics currentYear = [] := by
  constructor
  · unfold generateYearRange
    have hz : (endYear + 1 - startYear).toNat = 0 := by omega
    rw [hz]; rfl
  · have hr2 : generateYearRange 2016 currentYear = [] := by
      unfold generateYearRange
      have hz : (currentYear + 1 - 2016).toNat = 0 := by omega
      rw [hz]; rfl
    unfold aggregateMetricsByYear
    rw [hr2]; rfl

/-- Witness for the amended C3 at the concrete range 2019..2017 and clock year
2014. -/
theorem invalid_range_yields_empty_witness :
    generateYearRange 2019 2017 = [] ∧ aggregateMetricsByYear [] 2014 = [] :=
  invalid_range_yields_empty 2019 2017 [] 2014 (by decide) (by decide)

/-- C4: for any input record list, the cumulative totals of the three count
fields are non-decreasing across consecutive output entries. -/
theorem aggregateByYear_cumulative_monotone (metrics : List AgencyMetric)
    (currentYear : Int) :
    List.Chain' (fun a b =>
      a.cumulative_word_count ≤ b.cumulative_word_count ∧
      a.cumulative_paragraph_count ≤ b.cumulative_paragraph_count ∧
      a.cumulative_sentence_count ≤ b.cumulative_sentence_count)
      (aggregateMetricsByYear metrics currentYear) :=
  aggLoop_chain_cum _ _ _

/-- C5: a year of the output range with no input records is emitted with all
year totals 0, cumulative totals equal to the previous entry's cumulative
totals, and score averages equal to the previous entry's averages (which carry
the last known yearly mean); when no earlier year of the range had records
this chains down to the first entry, whose gap values are the defined default
of zero for every field. -/
theorem aggregateByYear_gap_years_carry_forward (metrics : List AgencyMetric)
    (currentYear : Int) :
    (∀ h0 : 0 < (aggregateMetricsByYear metrics currentYear).length,
      recordsForYear metrics
          ((aggregateMetricsByYear metrics currentYear).get ⟨0, h0⟩).year = [] →
      ((aggregateMetricsByYear metrics currentYear).get ⟨0, h0⟩).word_count = 0 ∧
      ((aggregateMetricsByYear metrics currentYear).get ⟨0, h0⟩).paragraph_count = 0 ∧
      ((aggregateMetricsByYear metrics currentYear).get ⟨0, h0⟩).sentence_count = 0 ∧
      ((aggregateMetricsByYear metrics currentYear).get ⟨0, h0⟩).cumulative_word_count = 0 ∧
      ((aggregateMetricsByYear metrics currentYear).get ⟨0, h0⟩).cumulative_paragraph_count = 0 ∧
      ((aggregateMetricsByYear metrics currentYear).get ⟨0, h0⟩).cumulative_sentence_count = 0 ∧
      ((aggregateMetricsByYear metrics currentYear).get ⟨0, h0⟩).avg_combined_readability_score = 0 ∧
      ((aggregateMetricsByYear metrics currentYear).get ⟨0, h0⟩).avg_flesch_reading_ease = 0 ∧
      ((aggregateMetricsByYear metrics currentYear).get ⟨0, h0⟩).avg_smog_index_score = 0 ∧
      ((aggregateMetricsByYear metrics currentYear).get ⟨0, h0⟩).avg_automated_readability_score = 0) ∧
    (∀ (i : Nat) (h : i + 1 < (aggregateMetricsByYear metrics currentYear).length),
      recordsForYear metrics
          ((aggregateMetricsByYear metrics currentYear).get ⟨i + 1, h⟩).year = [] →
      ((aggregateMetricsByYear metrics currentYear).get ⟨i + 1, h⟩).word_count = 0 ∧
      ((aggregateMetricsByYear metrics currentYear).get ⟨i + 1, h⟩).paragraph_count = 0 ∧
      ((aggregateMetricsByYear metrics currentYear).get ⟨i + 1, h⟩).sentence_count = 0 ∧
      ((aggregateMetricsByYear metrics currentYear).get ⟨i + 1, h⟩).cumulative_word_count
        = ((aggregateMetricsByYear metrics currentYear).get ⟨i, by omega⟩).cumulative_word_count ∧
      ((aggregateMetricsByYear metrics currentYear).get ⟨i + 1, h⟩).cumulative_paragraph_count
        = ((aggregateMetricsByYear metrics currentYear).get ⟨i, by omega⟩).cumulative_paragraph_count ∧
      ((aggregateMetricsByYear metrics currentYear).get ⟨i + 1, h⟩).cumulative_sentence_count
        = ((aggregateMetricsByYear metrics currentYear).get ⟨i, by omega⟩).cumulative_sentence_count ∧
      ((aggregateMetricsByYear metrics currentYear).get ⟨i + 1, h⟩).avg_combined_readability_score
        = ((aggregateMetricsByYear metrics currentYear).get ⟨i, by omega⟩).avg_combined_readability_score ∧
      ((aggregateMetricsByYear metrics currentYear).get ⟨i + 1, h⟩).avg_flesch_reading_ease
        = ((aggregateMetricsByYear metrics currentYear).get ⟨i, by omega⟩).avg_flesch_reading_ease ∧
      ((aggregateMetricsByYear metrics currentYear).get ⟨i + 1, h⟩).avg_smog_index_score
        = ((aggregateMetricsByYear metrics currentYear).get ⟨i, by omega⟩).avg_smog_index_score ∧
      ((aggregateMetricsByYear metrics currentYear).get ⟨i + 1, h⟩).avg_automated_readability_score
        = ((aggregateMetricsByYear metrics currentYear).get ⟨i, by omega⟩).avg_automated_readability_score) := by
  constructor
  · intro h0 hgap
    have hh : (aggregateMetricsByYear metrics currentYear).head? =
        some ((aggregateMetricsByYear metrics currentYear).get ⟨0, h0⟩) := by
      rw [List.head?_eq_getElem?, List.getElem?_eq_getElem h0]
      simp [List.get_eq_getElem]
    exact aggLoop_head_gap metrics (generateYearRange 2016 currentYear) initRunState _ hh hgap
  · intro i h hgap
    have hchain := aggLoop_chain_gap metrics (generateYearRange 2016 currentYear) initRunState
    rw [List.chain'_iff_get] at hchain
    have h' : i < (aggregateMetricsByYear metrics currentYear).length - 1 := by omega
    exact hchain i h' hgap

/-- Witness for C5 at one 2016 record over the range 2016..2017: the empty
year 2017 keeps totals 0 and the 2016 cumulative value. -/
theorem aggregateByYear_gap_years_carry_forward_witness :
    ((aggregateMetricsByYear [mkCountRecord "2016-05-01" 100] 2017).get ⟨1, by decide⟩).word_count = 0 ∧
    ((aggregateMetricsByYear [mkCountRecord "2016-05-01" 100] 2017).get ⟨1, by decide⟩).cumulative_word_count
      = ((aggregateMetricsByYear [mkCountRecord "2016-05-01" 100] 2017).get ⟨0, by decide⟩).cumulative_word_count :=
  ⟨((aggregateByYear_gap_years_carry_forward [mkCountRecord "2016-05-01" 100] 2017).2
      0 (by decide) (by decide)).1,
   ((aggregateByYear_gap_years_carry_forward [mkCountRecord "2016-05-01" 100] 2017).2
      0 (by decide) (by decide)).2.2.2.1⟩

/-- C6: every output entry whose year has at least one input record carries,
for each count field, the sum of that field over all of that year's records
(records of the same year all included, no deduplication), and for each score
field the arithmetic mean of that field over that year's records. -/
theorem aggregateByYear_year_sums_and_means (metrics : List AgencyMetric)
    (currentYear : Int) (e : AggregatedMetric)
    (he : e ∈ aggregateMetricsByYear metrics currentYear)
    (hne : recordsForYear metrics e.year ≠ []) :
    e.word_count = ((recordsForYear metrics e.year).map (fun m => jsOrN m.word_count 0)).sum ∧
    e.paragraph_count = ((recordsForYear metrics e.year).map (fun m => jsOrN m.paragraph_count 0)).sum ∧
    e.sentence_count = ((recordsForYear metrics e.year).map (fun m => jsOrN m.sentence_count 0)).sum ∧
    e.avg_combined_readability_score =
      ((recordsForYear metrics e.year).map (fun m => jsOrQ m.combined_readability_score 0)).sum
        / ((recordsForYear metrics e.year).length : ℚ) ∧
    e.avg_flesch_reading_ease =
      ((recordsForYear metrics e.year).map (fun m => jsOrQ m.flesch_reading_ease 0)).sum
        / ((recordsForYear metrics e.year).length : ℚ) ∧
    e.avg_smog_index_score =
      ((recordsForYear metrics e.year).map (fun m => jsOrQ m.smog_index_score 0)).sum
        / ((recordsForYear metrics e.year).length : ℚ) ∧
    e.avg_automated_readability_score =
      ((recordsForYear metrics e.year).map (fun m => jsOrQ m.automated_readability_score 0)).sum
        / ((recordsForYear metrics e.year).length : ℚ) := by
  obtain ⟨st', y, hy, rfl⟩ := mem_aggLoop _ _ _ _ he
  simp only [stepEntry_year] at hne ⊢
  have hsome : yearlyMetrics metrics (some y)
      = some ((recordsForYear metrics y).foldl bump zeroYearData) := by
    rw [yearlyMetrics_apply, recordsForKey_some]
    simp [hne]
  have hyd : yearDataAt (yearlyMetrics metrics) st' y
      = (recordsForYear metrics y).foldl bump zeroYearData := by
    simp [yearDataAt, hsome]
  have hpos : 0 < (recordsForYear metrics y).length := List.length_pos.mpr hne
  have hfold : (recordsForYear metrics y).foldl bump zeroYearData =
      { count := (recordsForYear metrics y).length,
        word_count := ((recordsForYear metrics y).map (fun m => jsOrN m.word_count 0)).sum,
        paragraph_count := ((recordsForYear metrics y).map (fun m => jsOrN m.paragraph_count 0)).sum,
        sentence_count := ((recordsForYear metrics y).map (fun m => jsOrN m.sentence_count 0)).sum,
        combined_readability_score :=
          ((recordsForYear metrics y).map (fun m => jsOrQ m.combined_readability_score 0)).sum,
        flesch_reading_ease :=
          ((recordsForYear metrics y).map (fun m => jsOrQ m.flesch_reading_ease 0)).sum,
        smog_index_score :=
          ((recordsForYear metrics y).map (fun m => jsOrQ m.smog_index_score 0)).sum,
        automated_readability_score :=
          ((recordsForYear metrics y).map (fun m => jsOrQ m.automated_readability_score 0)).sum } := by
    rw [foldl_bump_eq]
    simp [zeroYearData]
  refine ⟨?_, ?_, ?_, ?_, ?_, ?_, ?_⟩ <;>
    simp [stepEntry, stepState, hyd, hfold, hpos]

/-- Witness for C6 at two 2016 records (word counts 100 and 50) and the 2016
output entry: both same-year records are summed. -/
theorem aggregateByYear_year_sums_and_means_witness :
    ((aggregateMetricsByYear [mkCountRecord "2016-05-01" 100, mkCountRecord "2016-07-15" 50] 2016).get ⟨0, by decide⟩).word_count =
      ((recordsForYear [mkCountRecord "2016-05-01" 100, mkCountRecord "2016-07-15" 50]
          ((aggregateMetricsByYear [mkCountRecord "2016-05-01" 100, mkCountRecord "2016-07-15" 50] 2016).get ⟨0, by decide⟩).year).map
        (fun m => jsOrN m.word_count 0)).sum :=
  (aggregateByYear_year_sums_and_means
    [mkCountRecord "2016-05-01" 100, mkCountRecord "2016-07-15" 50] 2016
    ((aggregateMetricsByYear [mkCountRecord "2016-05-01" 100, mkCountRecord "2016-07-15" 50] 2016).get ⟨0, by decide⟩)
    (List.get_mem _ _ _) (by decide)).1

/-- C7: the spec's worked example: records with word counts 100 and 50 in
2016 and 30 in 2018, over 2016..2018, give totals 150/0/30 and cumulative
totals 150/150/180 in years 2016/2017/2018. -/
theorem aggregateByYear_spec_example :
    (aggregateMetricsByYear
        [mkCountRecord "2016-05-01" 100, mkCountRecord "2016-07-15" 50,
         mkCountRecord "2018-03-10" 30] 2018).map
      (fun e => (e.year, e.word_count, e.cumulative_word_count))
      = [(2016, 150, 150), (2017, 0, 150), (2018, 30, 180)] := by
  decide

/-- C8: the aggregation is a pure function of its record list and of the
current calendar year (the one value the source reads from outside its
argument list, via `new Date()`): equal inputs give identical outputs. -/
theorem aggregateByYear_pure (m1 m2 : List AgencyMetric) (c1 c2 : Int)
    (hm : m1 = m2) (hc : c1 = c2) :
    aggregateMetricsByYear m1 c1 = aggregateMetricsByYear m2 c2 := by
  rw [hm, hc]

/-- Witness for C8 at a concrete repeated call. -/
theorem aggregateByYear_pure_witness :
    aggregateMetricsByYear [mkCountRecord "2019-01-01" 4] 2020 =
      aggregateMetricsByYear [mkCountRecord "2019-01-01" 4] 2020 :=
  aggregateByYear_pure [mkCountRecord "2019-01-01" 4] [mkCountRecord "2019-01-01" 4]
    2020 2020 rfl rfl

/-- Lexicographic comparison of character lists by code point; on ISO-format
`YYYY-MM-DD` date strings this coincides with chronological order. -/
def charListLeb : List Char → List Char → Bool
  | [], _ => true
  | _ :: _, [] => false
  | a :: as, b :: bs =>
    if a.toNat < b.toNat then true
    else if b.toNat < a.toNat then false
    else charListLeb as bs

/-- Date order used by the datastore's `order('metrics_date', ...)`: string
comparison, which is chronological for ISO-format dates. -/
def dateLe (a b : String) : Bool := charListLeb a.toList b.toList

theorem charListLeb_refl : ∀ l : List Char, charListLeb l l = true := by
  intro l
  induction l with
  | nil => rfl
  | cons a as ih => simp [charListLeb, ih]

theorem dateLe_refl (s : String) : dateLe s s = true := charListLeb_refl _

/-- The `MetricKey` union of the agency grid (`AgenciesTable.tsx`). -/
inductive MetricKey where
  | word_count
  | paragraph_count
  | sentence_count
  | section_count
  | combined_readability_score
  | flesch_reading_ease
  | smog_index_score
  | automated_readability_score
  deriving DecidableEq, Repr

/-- The `metrics` object attached to each grid agency (fields may be null in
the datastore). -/
structure AgencyMetricsObj where
  word_count : Option ℚ
  paragraph_count : Option ℚ
  sentence_count : Option ℚ
  section_count : Option ℚ
  combined_readability_score : Option ℚ
  flesch_reading_ease : Option ℚ
  smog_index_score : Option ℚ
  automated_readability_score : Option ℚ
  year : Int
  deriving DecidableEq, Repr

/-- The grid's `interface Agency`: `metrics` is null when the agency has no
metric records. -/
structure Agency where
  id : Int
  name : String
  short_name : String
  display_name : String
  sortable_name : String
  slug : String
  metrics : Option AgencyMetricsObj
  deriving DecidableEq, Repr

/-- Dynamic property access `m[selectedMetric]`. -/
def getMetric (m : AgencyMetricsObj) : MetricKey → Option ℚ
  | .word_count => m.word_count
  | .paragraph_count => m.paragraph_count
  | .sentence_count => m.sentence_count
  | .section_count => m.section_count
  | .combined_readability_score => m.combined_readability_score
  | .flesch_reading_ease => m.flesch_reading_ease
  | .smog_index_score => m.smog_index_score
  | .automated_readability_score => m.automated_readability_score

/-- The sort key `a.metrics?.[selectedMetric] || 0` of the grid's comparator:
a null `metrics` object (or a null/zero field) is treated as value 0. -/
def metricValue (a : Agency) (k : MetricKey) : ℚ :=
  jsOrQ (a.metrics.bind (fun m => getMetric m k)) 0

/-- The grid's `[...filteredAgencies].sort((a, b) => bValue - aValue)`:
a stable sort, descending by the selected metric's value. -/
def sortedAgencies (agencies : List Agency) (selectedMetric : MetricKey) : List Agency :=
  agencies.mergeSort (fun a b =>
    decide (metricValue b selectedMetric ≤ metricValue a selectedMetric))

/-- C10: in the grid's descending sort, an agency whose `metrics` is null is
treated as having metric value 0, so no agency with a positive value of the
selected metric can appear after an agency with no metric data: whenever the
entry at position `i` has null metrics, every entry at a later position `j`
has value ≤ 0. -/
theorem grid_sort_null_metrics_treated_zero (agencies : List Agency) (k : MetricKey)
    (i j : Nat) (a b : Agency) (hij : i < j)
    (ha : (sortedAgencies agencies k)[i]? = some a)
    (hb : (sortedAgencies agencies k)[j]? = some b)
    (hnull : a.metrics = none) :
    metricValue a k = 0 ∧ metricValue b k ≤ 0 := by
  rw [List.getElem?_eq_some_iff] at ha hb
  obtain ⟨hi, ha⟩ := ha
  obtain ⟨hj, hb⟩ := hb
  subst ha hb
  have hzero : metricValue (sortedAgencies agencies k)[i] k = 0 := by
    simp [metricValue, hnull, jsOrQ]
  have hsorted := @List.sorted_mergeSort Agency
    (fun a b => decide (metricValue b k ≤ metricValue a k))
    (fun a b c hab hbc => by
      simp only [decide_eq_true_eq] at hab hbc ⊢
      exact le_trans hbc hab)
    (fun a b => by
      simp only [Bool.or_eq_true, decide_eq_true_eq]
      exact le_total _ _)
    agencies
  rw [List.pairwise_iff_getElem] at hsorted
  have h : metricValue (sortedAgencies agencies k)[j] k ≤
      metricValue (sortedAgencies agencies k)[i] k := by
    have hle := hsorted i j hi hj hij
    simp only [decide_eq_true_eq] at hle
    exact hle
  rw [hzero] at h
  exact ⟨hzero, h⟩

/-- An agency with the given id and no metric data. -/
def agencyNoMetrics (i : Int) : Agency :=
  { id := i, name := "A", short_name := "", display_name := "",
    sortable_name := "", slug := "", metrics := none }

/-- Witness for C10 at two agencies without metric data sorted by word count. -/
theorem grid_sort_null_metrics_treated_zero_witness :
    metricValue (agencyNoMetrics 1) MetricKey.word_count = 0 ∧
    metricValue (agencyNoMetrics 2) MetricKey.word_count ≤ 0 := by
  have heq : sortedAgencies [agencyNoMetrics 1, agencyNoMetrics 2] MetricKey.word_count
      = [agencyNoMetrics 1, agencyNoMetrics 2] :=
    List.mergeSort_of_sorted (by decide)
  exact grid_sort_null_metrics_treated_zero
    [agencyNoMetrics 1, agencyNoMetrics 2] MetricKey.word_count
    0 1 (agencyNoMetrics 1) (agencyNoMetrics 2) (by decide)
    (by rw [heq]; rfl) (by rw [heq]; rfl) rfl

/-- Row shape fetched by the grid's latest-metrics query (`AgenciesGrid`):
ordered by `metrics_date` descending on the server. -/
structure MetricRow where
  agency_id : Int
  word_count : Option ℚ
  paragraph_count : Option ℚ
  sentence_count : Option ℚ
  section_count : Option ℚ
  readability_score : Option ℚ
  language_complexity_score : Option ℚ
  simplicity_score : Option ℚ
  metrics_date : String
  deriving DecidableEq, Repr

/-- The value stored per agency in the grid's `metricsMap`: the row's metric
fields plus the year extracted from its date. -/
structure LatestMetrics where
  word_count : Option ℚ
  paragraph_count : Option ℚ
  sentence_count : Option ℚ
  section_count : Option ℚ
  readability_score : Option ℚ
  language_complexity_score : Option ℚ
  simplicity_score : Option ℚ
  year : Option Int
  deriving DecidableEq, Repr

/-- The object literal `metricsMap.set(metric.agency_id, { ...fields, year })`. -/
def mkLatestMetrics (m : MetricRow) : LatestMetrics :=
  { word_count := m.word_count, paragraph_count := m.paragraph_count,
    sentence_count := m.sentence_count, section_count := m.section_count,
    readability_score := m.readability_score,
    language_complexity_score := m.language_complexity_score,
    simplicity_score := m.simplicity_score,
    year := getFullYear m.metrics_date }

/-- One step of the grid's `metricsData.forEach`: set the agency's entry only
when the map does not yet have one (`if (!metricsMap.has(...)) set(...)`). -/
def metricsMapStep (acc : Int → Option LatestMetrics) (metric : MetricRow) :
    Int → Option LatestMetrics :=
  if (acc metric.agency_id).isSome then acc
  else fun k => if k = metric.agency_id then some (mkLatestMetrics metric) else acc k

/-- The grid's per-agency latest-metrics map, built by walking the fetched
(date-descending) rows and keeping the first row seen per agency. The chart
caller (`AgencyMetricsChart.fetchMetrics`) builds its map by the same
keep-first rule over the same date-descending fetch. -/
def metricsMap (metricsData : List MetricRow) : Int → Option LatestMetrics :=
  metricsData.foldl metricsMapStep (fun _ => none)

theorem metricsMap_foldl_eq_find (l : List MetricRow) :
    ∀ (acc : Int → Option LatestMetrics) (aid : Int),
      l.foldl metricsMapStep acc aid =
        match acc aid with
        | some v => some v
        | none => (l.find? (fun m => decide (m.agency_id = aid))).map mkLatestMetrics := by
  induction l with
  | nil => intro acc aid; cases h : acc aid <;> simp [h]
  | cons m l ih =>
    intro acc aid
    rw [List.foldl_cons, ih]
    by_cases hhas : (acc m.agency_id).isSome
    · have hstep : metricsMapStep acc m = acc := by simp [metricsMapStep, hhas]
      rw [hstep]
      cases h : acc aid with
      | some v => simp
      | none =>
        by_cases haid : m.agency_id = aid
        · rw [haid] at hhas
          rw [h] at hhas
          simp at hhas
        · simp [List.find?_cons, haid]
    · have hnone : acc m.agency_id = none := Option.not_isSome_iff_eq_none.mp hhas
      have hstep : metricsMapStep acc m =
          fun k => if k = m.agency_id then some (mkLatestMetrics m) else acc k := by
        simp [metricsMapStep, hhas]
      rw [hstep]
      by_cases haid : aid = m.agency_id
      · subst haid
        simp [hnone, List.find?_cons]
      · simp only [if_neg haid]
        cases h : acc aid with
        | some v => simp
        | none =>
          have hne : ¬ m.agency_id = aid := fun hh => haid hh.symm
          simp [List.find?_cons, hne]

theorem metricsMap_apply (l : List MetricRow) (aid : Int) :
    metricsMap l aid =
      (l.find? (fun m => decide (m.agency_id = aid))).map mkLatestMetrics := by
  rw [metricsMap, metricsMap_foldl_eq_find]

theorem find?_first_is_max_date :
    ∀ (l : List MetricRow),
      l.Pairwise (fun a b => dateLe b.metrics_date a.metrics_date = true) →
      ∀ (aid : Int) (r : MetricRow),
        l.find? (fun m => decide (m.agency_id = aid)) = some r →
        r.agency_id = aid ∧ r ∈ l ∧
        ∀ r' ∈ l, r'.agency_id = aid → dateLe r'.metrics_date r.metrics_date = true := by
  intro l
  induction l with
  | nil => intro _ aid r h; simp at h
  | cons m l ih =>
    intro hp aid r hfind
    rw [List.pairwise_cons] at hp
    obtain ⟨hm, hp'⟩ := hp
    by_cases hmatch : m.agency_id = aid
    · rw [List.find?_cons_of_pos _ (by simp [hmatch])] at hfind
      injection hfind with hfind
      subst hfind
      refine ⟨hmatch, List.mem_cons_self _ _, ?_⟩
      intro r' hr' _
      rcases List.mem_cons.mp hr' with h | hmem
      · rw [h]; exact dateLe_refl _
      · exact hm r' hmem
    · rw [List.find?_cons_of_neg _ (by simp [hmatch])] at hfind
      obtain ⟨h1, h2, h3⟩ := ih hp' aid r hfind
      refine ⟨h1, List.mem_cons_of_mem _ h2, ?_⟩
      intro r' hr' hr'aid
      rcases List.mem_cons.mp hr' with h | hmem
      · rw [h] at hr'aid; exact absurd hr'aid hmatch
      · exact h3 r' hmem hr'aid

/-- C9 as amended: the grid and chart callers select, per agency, the first
row for that agency in the fetched list; since the fetch is ordered by
`metrics_date` descending, that row attains the maximum date among the
agency's rows, and a tie on the maximum date is broken deterministically in
favour of the earliest-positioned row of the fetched list. (The detail-page
caller does not follow this rule; see the counterexample.) -/
theorem latest_metrics_first_of_date_sorted (l : List MetricRow) (aid : Int)
    (hsorted : l.Pairwise (fun a b => dateLe b.metrics_date a.metrics_date = true)) :
    metricsMap l aid =
      (l.find? (fun m => decide (m.agency_id = aid))).map mkLatestMetrics ∧
    ∀ r : MetricRow, l.find? (fun m => decide (m.agency_id = aid)) = some r →
      r.agency_id = aid ∧ r ∈ l ∧
      ∀ r' ∈ l, r'.agency_id = aid → dateLe r'.metrics_date r.metrics_date = true :=
  ⟨metricsMap_apply l aid, fun r hr => find?_first_is_max_date l hsorted aid r hr⟩

/-- Newer of the two concrete latest-metrics rows for agency 1. -/
def rowA : MetricRow :=
  { agency_id := 1, word_count := some 10, paragraph_count := none,
    sentence_count := none, section_count := none,
    readability_score := some 50, language_complexity_score := none,
    simplicity_score := none, metrics_date := "2024-01-01" }

/-- Older of the two concrete latest-metrics rows for agency 1. -/
def rowB : MetricRow :=
  { agency_id := 1, word_count := some 7, paragraph_count := none,
    sentence_count := none, section_count := none,
    readability_score := some 30, language_complexity_score := none,
    simplicity_score := none, metrics_date := "2020-01-01" }

/-- Witness for the amended C9 at the concrete date-descending row list
`[rowA, rowB]`: the map stores the first (newest) row for agency 1. -/
theorem latest_metrics_first_of_date_sorted_witness :
    metricsMap [rowA, rowB] 1 =
      (List.find? (fun m => decide (m.agency_id = 1)) [rowA, rowB]).map mkLatestMetrics ∧
    metricsMap [rowA, rowB] 1 = some (mkLatestMetrics rowA) ∧
    dateLe rowB.metrics_date rowA.metrics_date = true :=
  ⟨(latest_metrics_first_of_date_sorted [rowA, rowB] 1 (by decide)).1, by decide, by decide⟩

/-- Record shape of the detail-page variant in `part_006` (first
`interface AgencyMetric` there). -/
structure AgencyMetricV1 where
  id : Int
  agency_id : Int
  metrics_date : String
  word_count : Option Nat
  paragraph_count : Option Nat
  sentence_count : Option Nat
  section_count : Option Nat
  language_complexity_score : Option ℚ
  readability_score : Option ℚ
  simplicity_score : Option ℚ
  deriving DecidableEq, Repr

/-- The accumulator of the detail page's `metricsData.reduce`, started from
the empty object `{}` (every field undefined). -/
structure CumAcc where
  year : Option Int
  word_count : Option Nat
  paragraph_count : Option Nat
  sentence_count : Option Nat
  section_count : Option Nat
  readability_score : Option ℚ
  language_complexity_score : Option ℚ
  simplicity_score : Option ℚ
  deriving DecidableEq, Repr

/-- The empty object `{}` the detail page's reduce starts from. -/
def emptyCumAcc : CumAcc :=
  { year := none, word_count := none, paragraph_count := none,
    sentence_count := none, section_count := none, readability_score := none,
    language_complexity_score := none, simplicity_score := none }

/-- JavaScript truthiness test `!x` for a possibly-undefined/NaN year:
undefined, `NaN` (both `none` here) and 0 are falsy. -/
def jsFalsyI : Option Int → Bool
  | none => true
  | some v => v == 0

/-- JavaScript `a > b` for possibly-`NaN` numbers: any comparison involving
`NaN` (`none`) is false. -/
def jsGtI : Option Int → Option Int → Bool
  | some a, some b => decide (b < a)
  | _, _ => false

/-- JavaScript `x || y` keeping the option: a truthy `x` (non-null, non-zero)
wins, otherwise `y` stands. -/
def jsOrOptQ : Option ℚ → Option ℚ → Option ℚ
  | some v, y => if v = 0 then y else some v
  | none, y => y

/-- One step of the detail page's `metricsData.reduce((acc, curr) => ...)`:
keep the largest year seen, add up all count fields, and overwrite each score
with the current record's value when that value is truthy ("take the
latest" in fetch order, regardless of date). -/
def cumulativeStep (acc : CumAcc) (curr : AgencyMetricV1) : CumAcc :=
  let currYear := getFullYear curr.metrics_date
  { year := if jsFalsyI acc.year || jsGtI currYear acc.year then currYear else acc.year,
    word_count := some (jsOrN acc.word_count 0 + jsOrN curr.word_count 0),
    paragraph_count := some (jsOrN acc.paragraph_count 0 + jsOrN curr.paragraph_count 0),
    sentence_count := some (jsOrN acc.sentence_count 0 + jsOrN curr.sentence_count 0),
    section_count := some (jsOrN acc.section_count 0 + jsOrN curr.section_count 0),
    readability_score := jsOrOptQ curr.readability_score acc.readability_score,
    language_complexity_score :=
      jsOrOptQ curr.language_complexity_score acc.language_complexity_score,
    simplicity_score := jsOrOptQ curr.simplicity_score acc.simplicity_score }

/-- The detail page's `cumulativeMetrics` fold, whose result is stored as
`latestMetrics` (`setLatestMetrics(cumulativeMetrics)`); the rows for the
agency are fetched with no ordering. -/
def cumulativeMetrics (metricsData : List AgencyMetricV1) : CumAcc :=
  metricsData.foldl cumulativeStep emptyCumAcc

/-- Newer record for agency 1 on the detail page (date 2024, readability 50). -/
def newRecordV1 : AgencyMetricV1 :=
  { id := 1, agency_id := 1, metrics_date := "2024-01-01", word_count := some 10,
    paragraph_count := none, sentence_count := none, section_count := none,
    language_complexity_score := none, readability_score := some 50,
    simplicity_score := none }

/-- Older record for agency 1 on the detail page (date 2020, readability 30). -/
def oldRecordV1 : AgencyMetricV1 :=
  { id := 2, agency_id := 1, metrics_date := "2020-01-01", word_count := some 7,
    paragraph_count := none, sentence_count := none, section_count := none,
    language_complexity_score := none, readability_score := some 30,
    simplicity_score := none }

/-- C9 counterexample: the detail-page caller's `latestMetrics` does not come
from the maximum-date record: over a newer record (2024, readability 50,
word count 10) and an older one (2020, readability 30, word count 7), the fold
reports readability 30 — the older record's score, because it is last in fetch
order — and word count 17, a sum matching no single record. -/
theorem detail_page_latest_not_max_date :
    getFullYear newRecordV1.metrics_date = some 2024 ∧
    getFullYear oldRecordV1.metrics_date = some 2020 ∧
    (cumulativeMetrics [newRecordV1, oldRecordV1]).readability_score = some 30 ∧
    (cumulativeMetrics [newRecordV1, oldRecordV1]).readability_score ≠
      newRecordV1.readability_score ∧
    (cumulativeMetrics [newRecordV1, oldRecordV1]).word_count = some 17 ∧
    (cumulativeMetrics [newRecordV1, oldRecordV1]).word_count ≠ newRecordV1.word_count ∧
    (cumulativeMetrics [newRecordV1, oldRecordV1]).word_count ≠ oldRecordV1.word_count := by
  decide
